import Mathlib

/-!
Shallow embedding of the order-service domain model of the
delivery-order-api repository: the OrderStatus state machine, the Money and
Address value objects, the OrderItem entity and the Order aggregate, together
with theorems checking the specification's claims about them.

Conventions of the embedding:
* TS `number` values (money amounts, quantities) are rationals (ℚ); the
  integrality test `Number.isInteger q` is `q.den = 1`.
* `Date` timestamps are naturals; every mutating method takes the current
  time `now` as an extra argument standing for `new Date()`.
* A TS method that can `throw` returns `Except String _` (value objects) or,
  for the aggregate's mutators, an `OpResult` that records the aggregate
  state at the point of the throw, so that atomicity (state unchanged on
  failure) is a provable property of the translation rather than an artifact
  of purity.
-/

namespace Delivery

/-- The five order statuses of `OrderStatusEnum`. -/
inductive OrderStatusEnum where
  | CREATED
  | CONFIRMED
  | DISPATCHED
  | DELIVERED
  | CANCELLED
deriving DecidableEq, Repr, Fintype

open OrderStatusEnum

/-- JavaScript `String.prototype.toUpperCase` restricted to the ASCII range
used by the repository's status and currency strings. -/
def toUpperCase (s : String) : String := ⟨s.data.map Char.toUpper⟩

/-- The string tag of each status (the TS enum's string value). -/
def statusToString : OrderStatusEnum → String
  | CREATED => "CREATED"
  | CONFIRMED => "CONFIRMED"
  | DISPATCHED => "DISPATCHED"
  | DELIVERED => "DELIVERED"
  | CANCELLED => "CANCELLED"

/-- `OrderStatus.VALID_TRANSITIONS`: the transition table, from → allowed targets. -/
def VALID_TRANSITIONS : OrderStatusEnum → List OrderStatusEnum
  | CREATED => [CONFIRMED, CANCELLED]
  | CONFIRMED => [DISPATCHED, CANCELLED]
  | DISPATCHED => [DELIVERED]
  | DELIVERED => []
  | CANCELLED => []

/-- `OrderStatus.TERMINAL_STATES`. -/
def TERMINAL_STATES : List OrderStatusEnum := [DELIVERED, CANCELLED]

/-- `OrderStatus.canTransitionTo`: table lookup. -/
def canTransitionTo (s target : OrderStatusEnum) : Bool :=
  (VALID_TRANSITIONS s).contains target

/-- `OrderStatus.isTerminal`. -/
def isTerminal (s : OrderStatusEnum) : Bool :=
  TERMINAL_STATES.contains s

/-- `OrderStatus.isCancellable`. -/
def isCancellable (s : OrderStatusEnum) : Bool :=
  s == CREATED || s == CONFIRMED

/-- `OrderStatus.getAllStatuses` (`Object.values(OrderStatusEnum)`). -/
def getAllStatuses : List OrderStatusEnum :=
  [CREATED, CONFIRMED, DISPATCHED, DELIVERED, CANCELLED]

/-- `OrderStatus.create(value)`: normalizes to upper case and validates against
the fixed set, failing with the generic `Invalid order status` error otherwise. -/
def OrderStatus.create (value : String) : Except String OrderStatusEnum :=
  let normalizedValue := toUpperCase value
  match getAllStatuses.find? (fun s => statusToString s == normalizedValue) with
  | some s => Except.ok s
  | none => Except.error ("Invalid order status: " ++ value)

/-- The `Money` value object: an amount with a currency code. -/
structure Money where
  amount : ℚ
  currency : String
deriving DecidableEq, Repr

/-- JavaScript `Math.round`: round half toward positive infinity. -/
def jsRound (q : ℚ) : ℤ := ⌊q + 1 / 2⌋

/-- `Math.round(amount * 100) / 100`: round to 2 decimal places. -/
def round2 (q : ℚ) : ℚ := (jsRound (q * 100) : ℚ) / 100

/-- `Money.create(amount, currency)`: rejects negative amounts, rounds to two
decimals, uppercases the currency. -/
def Money.create (amount : ℚ) (currency : String) : Except String Money :=
  if amount < 0 then Except.error "Money amount cannot be negative"
  else Except.ok ⟨round2 amount, toUpperCase currency⟩

/-- `Money.zero(currency)`. -/
def Money.zero (currency : String) : Money := ⟨0, toUpperCase currency⟩

/-- `Money.ensureSameCurrency`. -/
def Money.ensureSameCurrency (m o : Money) : Except String Unit :=
  if m.currency ≠ o.currency then
    Except.error ("Currency mismatch: " ++ m.currency ++ " vs " ++ o.currency)
  else Except.ok ()

/-- `Money.add`. -/
def Money.add (m o : Money) : Except String Money :=
  match m.ensureSameCurrency o with
  | Except.error e => Except.error e
  | Except.ok _ => Money.create (m.amount + o.amount) m.currency

/-- `Money.subtract`. -/
def Money.subtract (m o : Money) : Except String Money :=
  match m.ensureSameCurrency o with
  | Except.error e => Except.error e
  | Except.ok _ =>
    if m.amount - o.amount < 0 then
      Except.error "Subtraction would result in negative amount"
    else Money.create (m.amount - o.amount) m.currency

/-- `Money.multiply(factor)`. -/
def Money.multiply (m : Money) (factor : ℚ) : Except String Money :=
  if factor < 0 then Except.error "Multiplication factor cannot be negative"
  else Money.create (m.amount * factor) m.currency

/-- `Money.equals`: structural comparison of amount and currency; note that it
performs no currency check and never fails. -/
def Money.equals (m o : Money) : Bool :=
  m.amount == o.amount && m.currency == o.currency

/-- `Money.greaterThan`: fails on currency mismatch. -/
def Money.greaterThan (m o : Money) : Except String Bool :=
  match m.ensureSameCurrency o with
  | Except.error e => Except.error e
  | Except.ok _ => Except.ok (decide (o.amount < m.amount))

/-- `Money.lessThan`: fails on currency mismatch. -/
def Money.lessThan (m o : Money) : Except String Bool :=
  match m.ensureSameCurrency o with
  | Except.error e => Except.error e
  | Except.ok _ => Except.ok (decide (m.amount < o.amount))

/-- The `Address` value object (five trimmed fields). -/
structure Address where
  street : String
  city : String
  state : String
  postalCode : String
  country : String
deriving DecidableEq, Repr

/-- The `OrderItem` entity. -/
structure OrderItem where
  id : Option String
  orderId : Option String
  productId : String
  productName : String
  quantity : ℚ
  unitPrice : Money
  createdAt : Nat
  updatedAt : Nat
deriving DecidableEq, Repr

/-- `OrderItem.create(props)`: validates product fields, positive-integer
quantity, positive unit price. -/
def OrderItem.create (props : OrderItem) : Except String OrderItem :=
  if props.productId.trim = "" then Except.error "Product ID is required"
  else if props.productName.trim = "" then Except.error "Product name is required"
  else if props.quantity.den ≠ 1 ∨ props.quantity ≤ 0 then
    Except.error "Quantity must be a positive integer"
  else if props.unitPrice.amount ≤ 0 then Except.error "Unit price must be positive"
  else Except.ok props

/-- `OrderItem.updateQuantity(quantity)`: same positive-integer rule, updates
the item's `updatedAt`. -/
def OrderItem.updateQuantity (item : OrderItem) (quantity : ℚ) (now : Nat) :
    Except String OrderItem :=
  if quantity.den ≠ 1 ∨ quantity ≤ 0 then
    Except.error "Quantity must be a positive integer"
  else Except.ok { item with quantity := quantity, updatedAt := now }

/-- `OrderItem.totalPrice`: `unitPrice.multiply(quantity)`, computed on demand. -/
def OrderItem.totalPrice (item : OrderItem) : Except String Money :=
  item.unitPrice.multiply item.quantity

/-- The `Order` aggregate root's observable state. -/
structure Order where
  id : Option String
  orderNumber : String
  retailerId : String
  customerId : String
  customerName : String
  customerEmail : String
  deliveryAddress : Address
  items : List OrderItem
  status : OrderStatusEnum
  notes : Option String
  createdAt : Nat
  updatedAt : Nat
  confirmedAt : Option Nat
  dispatchedAt : Option Nat
  deliveredAt : Option Nat
  cancelledAt : Option Nat
deriving DecidableEq, Repr

/-- The typed errors the aggregate raises: `InvalidStateTransitionError`,
`BusinessRuleViolationError`, and plain `Error` (generic). -/
inductive OpError where
  | invalidTransition (src tgt : String)
  | businessRule (msg : String)
  | generic (msg : String)
deriving DecidableEq, Repr

/-- Result of an aggregate mutator: the new state on success, or the error
together with the aggregate state as it stood at the throw point (so that
partial mutation before a throw would be observable). -/
inductive OpResult where
  | ok (state : Order)
  | error (e : OpError) (state : Order)
deriving DecidableEq, Repr

/-- Replace the first list element satisfying `p` (the in-place mutation of
the item returned by `Array.prototype.find`). -/
def replaceFirst (p : OrderItem → Bool) (v : OrderItem) : List OrderItem → List OrderItem
  | [] => []
  | x :: xs => if p x then v :: xs else x :: replaceFirst p v xs

/-- `Order.addItem(item)`: status guards, then merge-by-productId or append. -/
def Order.addItem (o : Order) (item : OrderItem) (now : Nat) : OpResult :=
  if isTerminal o.status then
    OpResult.error (OpError.businessRule "Cannot add items to a completed or cancelled order") o
  else if o.status ≠ CREATED then
    OpResult.error (OpError.businessRule "Can only add items to orders in CREATED status") o
  else
    match o.items.find? (fun i => i.productId == item.productId) with
    | some existingItem =>
      match existingItem.updateQuantity (existingItem.quantity + item.quantity) now with
      | Except.error msg => OpResult.error (OpError.generic msg) o
      | Except.ok updated =>
        OpResult.ok { o with
          items := replaceFirst (fun i => i.productId == item.productId) updated o.items,
          updatedAt := now }
    | none =>
      OpResult.ok { o with items := o.items ++ [item], updatedAt := now }

/-- `Order.removeItem(productId)`. -/
def Order.removeItem (o : Order) (productId : String) (now : Nat) : OpResult :=
  if isTerminal o.status then
    OpResult.error
      (OpError.businessRule "Cannot remove items from a completed or cancelled order") o
  else if o.status ≠ CREATED then
    OpResult.error (OpError.businessRule "Can only remove items from orders in CREATED status") o
  else
    match o.items.findIdx? (fun i => i.productId == productId) with
    | none =>
      OpResult.error (OpError.generic ("Item with product ID " ++ productId ++ " not found")) o
    | some index =>
      OpResult.ok { o with items := o.items.eraseIdx index, updatedAt := now }

/-- `Order.updateItemQuantity(productId, quantity)`. -/
def Order.updateItemQuantity (o : Order) (productId : String) (quantity : ℚ) (now : Nat) :
    OpResult :=
  if isTerminal o.status then
    OpResult.error (OpError.businessRule "Cannot update items in a completed or cancelled order") o
  else if o.status ≠ CREATED then
    OpResult.error (OpError.businessRule "Can only update items in orders in CREATED status") o
  else
    match o.items.find? (fun i => i.productId == productId) with
    | none =>
      OpResult.error (OpError.generic ("Item with product ID " ++ productId ++ " not found")) o
    | some item =>
      match item.updateQuantity quantity now with
      | Except.error msg => OpResult.error (OpError.generic msg) o
      | Except.ok updated =>
        OpResult.ok { o with
          items := replaceFirst (fun i => i.productId == productId) updated o.items,
          updatedAt := now }

/-- `Order.confirm()`: transition-table check first, then the zero-items
business rule, then the state update. -/
def Order.confirm (o : Order) (now : Nat) : OpResult :=
  if ¬ canTransitionTo o.status CONFIRMED then
    OpResult.error (OpError.invalidTransition (statusToString o.status) "CONFIRMED") o
  else if o.items.length = 0 then
    OpResult.error (OpError.businessRule "An order with zero items cannot be confirmed") o
  else
    OpResult.ok { o with status := CONFIRMED, confirmedAt := some now, updatedAt := now }

/-- `Order.dispatch()`. -/
def Order.dispatch (o : Order) (now : Nat) : OpResult :=
  if ¬ canTransitionTo o.status DISPATCHED then
    OpResult.error (OpError.invalidTransition (statusToString o.status) "DISPATCHED") o
  else
    OpResult.ok { o with status := DISPATCHED, dispatchedAt := some now, updatedAt := now }

/-- `Order.deliver()`. -/
def Order.deliver (o : Order) (now : Nat) : OpResult :=
  if ¬ canTransitionTo o.status DELIVERED then
    OpResult.error (OpError.invalidTransition (statusToString o.status) "DELIVERED") o
  else
    OpResult.ok { o with status := DELIVERED, deliveredAt := some now, updatedAt := now }

/-- `Order.cancel()`: guarded by `isCancellable`, raising
`BusinessRuleViolationError` otherwise. -/
def Order.cancel (o : Order) (now : Nat) : OpResult :=
  if ¬ isCancellable o.status then
    OpResult.error
      (OpError.businessRule
        ("Order can only be cancelled when in CREATED or CONFIRMED status. Current status: "
          ++ statusToString o.status)) o
  else
    OpResult.ok { o with status := CANCELLED, cancelledAt := some now, updatedAt := now }

/-- `Order.transitionTo(targetStatusValue)`: parses the target string first
(`OrderStatus.create` throws a generic error on an invalid string), then the
terminal-state guard, then dispatches on the parsed target. -/
def Order.transitionTo (o : Order) (targetStatusValue : String) (now : Nat) : OpResult :=
  match OrderStatus.create targetStatusValue with
  | Except.error msg => OpResult.error (OpError.generic msg) o
  | Except.ok targetStatus =>
    if isTerminal o.status then
      OpResult.error
        (OpError.businessRule ("Cannot transition from terminal state: "
          ++ statusToString o.status)) o
    else
      match targetStatus with
      | CONFIRMED => o.confirm now
      | DISPATCHED => o.dispatch now
      | DELIVERED => o.deliver now
      | CANCELLED => o.cancel now
      | CREATED =>
        OpResult.error
          (OpError.invalidTransition (statusToString o.status) (statusToString targetStatus)) o

/-- The fold of `Order.totalAmount`'s `reduce`: accumulate
`total.add(item.totalPrice)` left to right. -/
def sumItems : List OrderItem → Money → Except String Money
  | [], total => Except.ok total
  | item :: rest, total =>
    match item.totalPrice with
    | Except.error e => Except.error e
    | Except.ok tp =>
      match total.add tp with
      | Except.error e => Except.error e
      | Except.ok t => sumItems rest t

/-- `Order.totalAmount`: zero `Money` for an empty item list, otherwise the
reduce starting from `Money.zero()` (whose default currency is USD). -/
def Order.totalAmount (o : Order) : Except String Money :=
  if o.items.length = 0 then Except.ok (Money.zero "USD")
  else sumItems o.items (Money.zero "USD")

/-! Concrete sample data used to instantiate the theorems below. -/

/-- A well-formed delivery address. -/
def sampleAddress : Address := ⟨"1 Main St", "Springfield", "IL", "62701", "USA"⟩

/-- An order item with the given product id, quantity, unit price and currency. -/
def mkItem (pid : String) (q : ℚ) (price : ℚ) (cur : String) : OrderItem :=
  ⟨some ("item-" ++ pid), some "order-1", pid, "Product " ++ pid, q, ⟨price, cur⟩, 0, 0⟩

/-- An order in the given status holding the given items. -/
def baseOrder (status : OrderStatusEnum) (items : List OrderItem) : Order :=
  ⟨some "order-1", "ORD-XYZ", "retailer-1", "customer-1", "Ada Lovelace",
    "ada@example.com", sampleAddress, items, status, none, 0, 0, none, none, none, none⟩

/-- An order whose single item is priced in EUR: `totalAmount`'s reduce starts
from `Money.zero()` in USD, so summation hits the currency guard. -/
def eurOrder : Order := baseOrder OrderStatusEnum.CREATED [mkItem "p1" 1 10 "EUR"]

/-- Order used for the merge example: one line of product p1 at 10 USD. -/
def mergeBase : Order := baseOrder OrderStatusEnum.CREATED [mkItem "p1" 1 10 "USD"]

/-- A second item for product p1 carrying a different unit price (99 USD). -/
def mergeNew : OrderItem := mkItem "p1" 2 99 "USD"

/-- Order with items (qty 2 at 10 USD) and (qty 3 at 5 USD). -/
def twoItemOrder : Order :=
  baseOrder OrderStatusEnum.CREATED [mkItem "p1" 2 10 "USD", mkItem "p2" 3 5 "USD"]

/-! Helper lemmas. -/

/-- Integrality (denominator one) is preserved by addition. -/
theorem den_one_add {a b : ℚ} (ha : a.den = 1) (hb : b.den = 1) : (a + b).den = 1 := by
  have ha2 : (a.num : ℚ) = a := (Rat.den_eq_one_iff a).mp ha
  have hb2 : (b.num : ℚ) = b := (Rat.den_eq_one_iff b).mp hb
  have h : ((a.num + b.num : ℤ) : ℚ) = a + b := by push_cast [ha2, hb2]; ring
  rw [← h, Rat.den_intCast]

/-- Integrality (denominator one) is preserved by multiplication. -/
theorem den_one_mul {a b : ℚ} (ha : a.den = 1) (hb : b.den = 1) : (a * b).den = 1 := by
  have ha2 : (a.num : ℚ) = a := (Rat.den_eq_one_iff a).mp ha
  have hb2 : (b.num : ℚ) = b := (Rat.den_eq_one_iff b).mp hb
  have h : ((a.num * b.num : ℤ) : ℚ) = a * b := by push_cast [ha2, hb2]; ring
  rw [← h, Rat.den_intCast]

/-- Rounding to two decimals is the identity on values that are exact
multiples of one hundredth. -/
theorem round2_eq_self {q : ℚ} (h : (q * 100).den = 1) : round2 q = q := by
  have h2 : ((q * 100).num : ℚ) = q * 100 := (Rat.den_eq_one_iff (q * 100)).mp h
  have hfl : ⌊q * 100 + 1 / 2⌋ = (q * 100).num := by
    rw [← h2, Int.floor_int_add]
    norm_num
  unfold round2 jsRound
  rw [hfl, h2]
  field_simp

/-- `replaceFirst` preserves list length. -/
theorem replaceFirst_length (p : OrderItem → Bool) (v : OrderItem) :
    ∀ l : List OrderItem, (replaceFirst p v l).length = l.length := by
  intro l
  induction l with
  | nil => rfl
  | cons x xs ih =>
    by_cases hx : p x = true
    · simp [replaceFirst, hx]
    · simp [replaceFirst, hx, ih]

/-- `replaceFirst` with a replacement still satisfying the predicate keeps
the count of matching elements. -/
theorem replaceFirst_countP (p : OrderItem → Bool) (v : OrderItem) (hv : p v = true) :
    ∀ l : List OrderItem, (replaceFirst p v l).countP p = l.countP p := by
  intro l
  induction l with
  | nil => rfl
  | cons x xs ih =>
    by_cases hx : p x = true
    · simp [replaceFirst, hx, List.countP_cons, hv]
    · simp [replaceFirst, hx, List.countP_cons, ih]

/-- After replacing the first match by `v` (itself a match), the first match
is `v`. -/
theorem replaceFirst_find? (p : OrderItem → Bool) (v : OrderItem) (hv : p v = true) :
    ∀ (l : List OrderItem) (ex : OrderItem), l.find? p = some ex →
      (replaceFirst p v l).find? p = some v := by
  intro l
  induction l with
  | nil => intro ex h; cases h
  | cons x xs ih =>
    intro ex h
    by_cases hx : p x = true
    · simp [replaceFirst, hx, List.find?_cons_of_pos _ hv]
    · rw [List.find?_cons_of_neg _ hx] at h
      have hrw : replaceFirst p v (x :: xs) = x :: replaceFirst p v xs := by
        simp [replaceFirst, hx]
      rw [hrw, List.find?_cons_of_neg _ hx]
      exact ih ex h

/-! Claim theorems. -/

/-- C1 (counterexample): over the 25 status pairs, `canTransitionTo` is true
for exactly 5 pairs and false for exactly 20 — not 6 and 19 as the claim
counts. -/
theorem C1_counterexample :
    (Finset.univ.filter
      (fun p : OrderStatusEnum × OrderStatusEnum => canTransitionTo p.1 p.2 = true)).card = 5 ∧
    (Finset.univ.filter
      (fun p : OrderStatusEnum × OrderStatusEnum => canTransitionTo p.1 p.2 = false)).card
      = 20 := by
  decide

/-- C1 (amended): over the 5×5 status matrix, `canTransitionTo` returns true
exactly for the five pairs of the §4.1 table — CREATED→CONFIRMED,
CREATED→CANCELLED, CONFIRMED→DISPATCHED, CONFIRMED→CANCELLED,
DISPATCHED→DELIVERED — and false for the other 20 pairs; it is a pure table
lookup with no side effect. -/
theorem C1_canTransitionTo_matches_table :
    (∀ s t : OrderStatusEnum, canTransitionTo s t = true ↔
      (s, t) ∈ [(OrderStatusEnum.CREATED, OrderStatusEnum.CONFIRMED),
        (OrderStatusEnum.CREATED, OrderStatusEnum.CANCELLED),
        (OrderStatusEnum.CONFIRMED, OrderStatusEnum.DISPATCHED),
        (OrderStatusEnum.CONFIRMED, OrderStatusEnum.CANCELLED),
        (OrderStatusEnum.DISPATCHED, OrderStatusEnum.DELIVERED)]) ∧
    (Finset.univ.filter
      (fun p : OrderStatusEnum × OrderStatusEnum => canTransitionTo p.1 p.2 = true)).card
      = 5 := by
  decide

/-- C2 (counterexample): an order with zero items whose status is DISPATCHED
fails `confirm()` with `InvalidStateTransitionError`, not
`BusinessRuleViolationError`: the transition-table check runs first. -/
theorem C2_counterexample :
    (baseOrder DISPATCHED []).items = [] ∧
    Order.confirm (baseOrder DISPATCHED []) 5 =
      OpResult.error (OpError.invalidTransition "DISPATCHED" "CONFIRMED")
        (baseOrder DISPATCHED []) :=
  ⟨rfl, rfl⟩

/-- C2 (amended): `confirm()` on an order with an empty items list always
fails: with `BusinessRuleViolationError` when the status is CREATED (the only
status whose table row permits CONFIRMED), and with an invalid-transition
error from every other status — the table check precedes the zero-items
rule. -/
theorem C2_confirm_empty (o : Order) (now : Nat) (h : o.items = []) :
    (o.status = CREATED →
      Order.confirm o now =
        OpResult.error (OpError.businessRule "An order with zero items cannot be confirmed") o) ∧
    (o.status ≠ CREATED →
      Order.confirm o now =
        OpResult.error (OpError.invalidTransition (statusToString o.status) "CONFIRMED") o) := by
  constructor
  · intro hs
    have hc : canTransitionTo o.status CONFIRMED = true := by rw [hs]; rfl
    simp [Order.confirm, hc, h]
  · intro hs
    have hc : canTransitionTo o.status CONFIRMED = false := by
      cases hst : o.status
      · exact absurd hst hs
      · rfl
      · rfl
      · rfl
      · rfl
    simp [Order.confirm, hc]

/-- C2 (witness): a concrete CREATED order with no items fails `confirm()`
with the zero-items business-rule error. -/
theorem C2_witness :
    Order.confirm (baseOrder CREATED []) 4 =
      OpResult.error (OpError.businessRule "An order with zero items cannot be confirmed")
        (baseOrder CREATED []) :=
  (C2_confirm_empty (baseOrder CREATED []) 4 rfl).1 rfl

/-- C3: `cancel()` succeeds — setting status to CANCELLED and `cancelledAt` —
exactly when `isCancellable()` holds, i.e. when the status is CREATED or
CONFIRMED, and otherwise fails with `BusinessRuleViolationError`; and
`isCancellable` is strictly narrower than the negation of `isTerminal`
(DISPATCHED is non-terminal yet not cancellable). -/
theorem C3_cancel_iff_cancellable (o : Order) (now : Nat) :
    (isCancellable o.status = true →
      Order.cancel o now =
        OpResult.ok { o with status := CANCELLED, cancelledAt := some now, updatedAt := now }) ∧
    (isCancellable o.status = false →
      Order.cancel o now =
        OpResult.error
          (OpError.businessRule
            ("Order can only be cancelled when in CREATED or CONFIRMED status. Current status: "
              ++ statusToString o.status)) o) ∧
    (isCancellable o.status = true ↔ o.status = CREATED ∨ o.status = CONFIRMED) ∧
    (∀ s, isCancellable s = true → isTerminal s = false) ∧
    (isTerminal DISPATCHED = false ∧ isCancellable DISPATCHED = false) := by
  refine ⟨?_, ?_, ?_, by decide, by decide⟩
  · intro h
    simp [Order.cancel, h]
  · intro h
    simp [Order.cancel, h]
  · generalize o.status = s
    cases s <;> decide

/-- C3 (witness): a concrete CONFIRMED order is cancellable and `cancel()`
moves it to CANCELLED with `cancelledAt` set. -/
theorem C3_witness :
    isCancellable (baseOrder CONFIRMED []).status = true ∧
    Order.cancel (baseOrder CONFIRMED []) 9 =
      OpResult.ok { baseOrder CONFIRMED [] with
        status := CANCELLED, cancelledAt := some 9, updatedAt := 9 } :=
  ⟨rfl, (C3_cancel_iff_cancellable (baseOrder CONFIRMED []) 9).1 rfl⟩

/-- C5: on an order whose status is not CREATED, each of `addItem`,
`removeItem` and `updateItemQuantity` fails with
`BusinessRuleViolationError`, leaving the aggregate (in particular the items
list) exactly as it was. -/
theorem C5_mutations_require_CREATED (o : Order) (item : OrderItem) (productId : String)
    (quantity : ℚ) (now : Nat) (h : o.status ≠ CREATED) :
    (∃ msg, Order.addItem o item now = OpResult.error (OpError.businessRule msg) o) ∧
    (∃ msg, Order.removeItem o productId now = OpResult.error (OpError.businessRule msg) o) ∧
    (∃ msg, Order.updateItemQuantity o productId quantity now
      = OpResult.error (OpError.businessRule msg) o) := by
  refine ⟨?_, ?_, ?_⟩
  · by_cases ht : isTerminal o.status = true
    · exact ⟨"Cannot add items to a completed or cancelled order",
        by simp [Order.addItem, ht]⟩
    · exact ⟨"Can only add items to orders in CREATED status",
        by simp [Order.addItem, ht, h]⟩
  · by_cases ht : isTerminal o.status = true
    · exact ⟨"Cannot remove items from a completed or cancelled order",
        by simp [Order.removeItem, ht]⟩
    · exact ⟨"Can only remove items from orders in CREATED status",
        by simp [Order.removeItem, ht, h]⟩
  · by_cases ht : isTerminal o.status = true
    · exact ⟨"Cannot update items in a completed or cancelled order",
        by simp [Order.updateItemQuantity, ht]⟩
    · exact ⟨"Can only update items in orders in CREATED status",
        by simp [Order.updateItemQuantity, ht, h]⟩

/-- C5 (witness): on a concrete DELIVERED order, `addItem` fails with a
business-rule error and the items list is untouched. -/
theorem C5_witness :
    (baseOrder DELIVERED []).status ≠ CREATED ∧
    (∃ msg, Order.addItem (baseOrder DELIVERED []) (mkItem "p9" 1 5 "USD") 7 =
      OpResult.error (OpError.businessRule msg) (baseOrder DELIVERED [])) :=
  ⟨by decide,
    (C5_mutations_require_CREATED (baseOrder DELIVERED []) (mkItem "p9" 1 5 "USD")
      "p9" 1 7 (by decide)).1⟩

/-- Every throw in `addItem` happens before any field update. -/
theorem addItem_atomic (o : Order) (item : OrderItem) (now : Nat) (e : OpError) (s : Order)
    (h : Order.addItem o item now = OpResult.error e s) : s = o := by
  unfold Order.addItem at h
  repeat' split at h
  all_goals first
    | (injection h with h1 h2; exact h2.symm)
    | injection h

/-- Every throw in `removeItem` happens before any field update. -/
theorem removeItem_atomic (o : Order) (productId : String) (now : Nat) (e : OpError) (s : Order)
    (h : Order.removeItem o productId now = OpResult.error e s) : s = o := by
  unfold Order.removeItem at h
  repeat' split at h
  all_goals first
    | (injection h with h1 h2; exact h2.symm)
    | injection h

/-- Every throw in `updateItemQuantity` happens before any field update. -/
theorem updateItemQuantity_atomic (o : Order) (productId : String) (quantity : ℚ) (now : Nat)
    (e : OpError) (s : Order)
    (h : Order.updateItemQuantity o productId quantity now = OpResult.error e s) : s = o := by
  unfold Order.updateItemQuantity at h
  repeat' split at h
  all_goals first
    | (injection h with h1 h2; exact h2.symm)
    | injection h

/-- Every throw in `confirm` happens before any field update. -/
theorem confirm_atomic (o : Order) (now : Nat) (e : OpError) (s : Order)
    (h : Order.confirm o now = OpResult.error e s) : s = o := by
  unfold Order.confirm at h
  repeat' split at h
  all_goals first
    | (injection h with h1 h2; exact h2.symm)
    | injection h

/-- Every throw in `dispatch` happens before any field update. -/
theorem dispatch_atomic (o : Order) (now : Nat) (e : OpError) (s : Order)
    (h : Order.dispatch o now = OpResult.error e s) : s = o := by
  unfold Order.dispatch at h
  repeat' split at h
  all_goals first
    | (injection h with h1 h2; exact h2.symm)
    | injection h

/-- Every throw in `deliver` happens before any field update. -/
theorem deliver_atomic (o : Order) (now : Nat) (e : OpError) (s : Order)
    (h : Order.deliver o now = OpResult.error e s) : s = o := by
  unfold Order.deliver at h
  repeat' split at h
  all_goals first
    | (injection h with h1 h2; exact h2.symm)
    | injection h

/-- Every throw in `cancel` happens before any field update. -/
theorem cancel_atomic (o : Order) (now : Nat) (e : OpError) (s : Order)
    (h : Order.cancel o now = OpResult.error e s) : s = o := by
  unfold Order.cancel at h
  repeat' split at h
  all_goals first
    | (injection h with h1 h2; exact h2.symm)
    | injection h

/-- Every throw in `transitionTo` happens before any field update, including
the ones raised by the methods it dispatches to. -/
theorem transitionTo_atomic (o : Order) (target : String) (now : Nat) (e : OpError) (s : Order)
    (h : Order.transitionTo o target now = OpResult.error e s) : s = o := by
  unfold Order.transitionTo at h
  repeat' split at h
  all_goals first
    | (injection h with h1 h2; exact h2.symm)
    | injection h
    | exact confirm_atomic o now e s h
    | exact dispatch_atomic o now e s h
    | exact deliver_atomic o now e s h
    | exact cancel_atomic o now e s h

/-- C6: no aggregate operation partially applies — whenever `addItem`,
`removeItem`, `updateItemQuantity`, `confirm`, `dispatch`, `deliver`,
`cancel` or `transitionTo` fails, the returned aggregate state (status,
items, notes, timestamps — every observable field) is exactly the input
state. -/
theorem C6_no_partial_application (o : Order) (item : OrderItem) (productId : String)
    (quantity : ℚ) (target : String) (now : Nat) (e : OpError) (s : Order) :
    (Order.addItem o item now = OpResult.error e s → s = o) ∧
    (Order.removeItem o productId now = OpResult.error e s → s = o) ∧
    (Order.updateItemQuantity o productId quantity now = OpResult.error e s → s = o) ∧
    (Order.confirm o now = OpResult.error e s → s = o) ∧
    (Order.dispatch o now = OpResult.error e s → s = o) ∧
    (Order.deliver o now = OpResult.error e s → s = o) ∧
    (Order.cancel o now = OpResult.error e s → s = o) ∧
    (Order.transitionTo o target now = OpResult.error e s → s = o) :=
  ⟨addItem_atomic o item now e s, removeItem_atomic o productId now e s,
    updateItemQuantity_atomic o productId quantity now e s, confirm_atomic o now e s,
    dispatch_atomic o now e s, deliver_atomic o now e s, cancel_atomic o now e s,
    transitionTo_atomic o target now e s⟩

/-- C6 (witness): a concrete rejected `addItem` on a DELIVERED order returns
the aggregate exactly as it was. -/
theorem C6_witness :
    Order.addItem (baseOrder DELIVERED []) (mkItem "p9" 1 5 "USD") 3 =
      OpResult.error (OpError.businessRule "Cannot add items to a completed or cancelled order")
        (baseOrder DELIVERED []) ∧
    baseOrder DELIVERED [] = baseOrder DELIVERED [] :=
  ⟨rfl,
    (C6_no_partial_application (baseOrder DELIVERED []) (mkItem "p9" 1 5 "USD") "p9" 1 "X" 3
      (OpError.businessRule "Cannot add items to a completed or cancelled order")
      (baseOrder DELIVERED [])).1 rfl⟩

/-- C8 (counterexample): `Money.equals` on two amounts in different
currencies does not raise a currency-mismatch error — it returns the boolean
`false` (only `greaterThan`/`lessThan` raise). -/
theorem C8_counterexample :
    Money.equals ⟨1, "USD"⟩ ⟨1, "EUR"⟩ = false ∧
    Money.greaterThan ⟨1, "USD"⟩ ⟨1, "EUR"⟩ = Except.error "Currency mismatch: USD vs EUR" :=
  ⟨rfl, rfl⟩

/-- C8 (amended): `greaterThan` and `lessThan` fail with a currency-mismatch
error when the currencies differ and compare the amounts when they match;
`equals` never fails — it compares amount and currency structurally,
returning false whenever the currencies differ. -/
theorem C8_comparisons (a b : Money) :
    (a.currency ≠ b.currency →
      a.greaterThan b =
        Except.error ("Currency mismatch: " ++ a.currency ++ " vs " ++ b.currency) ∧
      a.lessThan b =
        Except.error ("Currency mismatch: " ++ a.currency ++ " vs " ++ b.currency) ∧
      a.equals b = false) ∧
    (a.currency = b.currency →
      a.greaterThan b = Except.ok (decide (b.amount < a.amount)) ∧
      a.lessThan b = Except.ok (decide (a.amount < b.amount)) ∧
      (a.equals b = true ↔ a.amount = b.amount)) := by
  constructor
  · intro h
    refine ⟨?_, ?_, ?_⟩
    · simp [Money.greaterThan, Money.ensureSameCurrency, h]
    · simp [Money.lessThan, Money.ensureSameCurrency, h]
    · simp [Money.equals, h]
  · intro h
    refine ⟨?_, ?_, ?_⟩
    · simp [Money.greaterThan, Money.ensureSameCurrency, h]
    · simp [Money.lessThan, Money.ensureSameCurrency, h]
    · simp [Money.equals, h]

/-- C8 (witness): with matching currencies, `lessThan` returns the amount
comparison (5 USD is less than 7 USD). -/
theorem C8_witness :
    Money.lessThan ⟨5, "USD"⟩ ⟨7, "USD"⟩ = Except.ok (decide ((5 : ℚ) < 7)) :=
  ((C8_comparisons ⟨5, "USD"⟩ ⟨7, "USD"⟩).2 rfl).2.1

/-- C9 (counterexample): on a terminal (DELIVERED) order, `transitionTo` with
the unrecognized target string FOO fails with the generic
`Invalid order status` error raised by `OrderStatus.create` — not with the
business-rule terminal-state error the claim requires. -/
theorem C9_counterexample :
    isTerminal (baseOrder DELIVERED []).status = true ∧
    Order.transitionTo (baseOrder DELIVERED []) "FOO" 5 =
      OpResult.error (OpError.generic "Invalid order status: FOO") (baseOrder DELIVERED []) :=
  ⟨rfl, rfl⟩

/-- C9 (amended): `transitionTo` first parses the target string
(case-insensitively) against the five statuses, failing with the generic
invalid-status error for any other string even when the order is terminal;
with a parsed target it fails with a business-rule error if the current
status is terminal, and otherwise dispatches to
`confirm`/`dispatch`/`deliver`/`cancel`, failing with an invalid-transition
error for the recognized but undispatchable target CREATED. -/
theorem C9_transitionTo_dispatch (o : Order) (target : String) (now : Nat) :
    (∀ msg, OrderStatus.create target = Except.error msg →
      Order.transitionTo o target now = OpResult.error (OpError.generic msg) o) ∧
    (∀ ts, OrderStatus.create target = Except.ok ts → isTerminal o.status = true →
      Order.transitionTo o target now =
        OpResult.error
          (OpError.businessRule
            ("Cannot transition from terminal state: " ++ statusToString o.status)) o) ∧
    (∀ ts, OrderStatus.create target = Except.ok ts → isTerminal o.status = false →
      Order.transitionTo o target now =
        (match ts with
          | CONFIRMED => Order.confirm o now
          | DISPATCHED => Order.dispatch o now
          | DELIVERED => Order.deliver o now
          | CANCELLED => Order.cancel o now
          | CREATED =>
            OpResult.error (OpError.invalidTransition (statusToString o.status) "CREATED") o)) := by
  refine ⟨?_, ?_, ?_⟩
  · intro msg hmsg
    simp [Order.transitionTo, hmsg]
  · intro ts hts hterm
    simp [Order.transitionTo, hts, hterm]
  · intro ts hts hterm
    simp only [Order.transitionTo, hts, hterm]
    cases ts <;> simp [statusToString]

/-- C9 (witness): on a non-terminal CREATED order with one item, the
lower-case target string confirmed dispatches to `confirm()`. -/
theorem C9_witness :
    Order.transitionTo (baseOrder CREATED [mkItem "p1" 1 10 "USD"]) "confirmed" 6 =
      Order.confirm (baseOrder CREATED [mkItem "p1" 1 10 "USD"]) 6 :=
  (C9_transitionTo_dispatch (baseOrder CREATED [mkItem "p1" 1 10 "USD"]) "confirmed" 6).2.2
    CONFIRMED rfl rfl

/-- The reduce of `totalAmount` over USD items with two-decimal nonnegative
prices and nonnegative integral quantities computes the exact running sum of
quantity × unitPrice. -/
theorem sumItems_ok (items : List OrderItem) :
    ∀ acc : ℚ, (acc * 100).den = 1 → 0 ≤ acc →
    (∀ i ∈ items, i.unitPrice.currency = "USD" ∧ (i.unitPrice.amount * 100).den = 1 ∧
      0 ≤ i.unitPrice.amount ∧ i.quantity.den = 1 ∧ 0 ≤ i.quantity) →
    sumItems items ⟨acc, "USD"⟩ =
      Except.ok ⟨acc + (items.map (fun i => i.unitPrice.amount * i.quantity)).sum, "USD"⟩ := by
  induction items with
  | nil =>
    intro acc _ _ _
    simp [sumItems]
  | cons it rest ih =>
    intro acc haccden hacc0 h
    obtain ⟨hc, hpden, hp0, hqden, hq0⟩ := h it (List.mem_cons_self it rest)
    have hrest : ∀ i ∈ rest, i.unitPrice.currency = "USD" ∧
        (i.unitPrice.amount * 100).den = 1 ∧ 0 ≤ i.unitPrice.amount ∧
        i.quantity.den = 1 ∧ 0 ≤ i.quantity :=
      fun i hi => h i (List.mem_cons_of_mem it hi)
    have hxden : (it.unitPrice.amount * it.quantity * 100).den = 1 := by
      have hrw : it.unitPrice.amount * it.quantity * 100
          = it.unitPrice.amount * 100 * it.quantity := by ring
      rw [hrw]
      exact den_one_mul hpden hqden
    have htp : OrderItem.totalPrice it =
        Except.ok ⟨it.unitPrice.amount * it.quantity, "USD"⟩ := by
      unfold OrderItem.totalPrice Money.multiply Money.create
      rw [if_neg (not_lt.mpr hq0), if_neg (not_lt.mpr (mul_nonneg hp0 hq0))]
      rw [round2_eq_self hxden, hc]
      exact rfl
    have hsum_den : ((acc + it.unitPrice.amount * it.quantity) * 100).den = 1 := by
      have hrw : (acc + it.unitPrice.amount * it.quantity) * 100
          = acc * 100 + it.unitPrice.amount * it.quantity * 100 := by ring
      rw [hrw]
      exact den_one_add haccden hxden
    have hsum0 : (0 : ℚ) ≤ acc + it.unitPrice.amount * it.quantity :=
      add_nonneg hacc0 (mul_nonneg hp0 hq0)
    have hadd : Money.add ⟨acc, "USD"⟩ ⟨it.unitPrice.amount * it.quantity, "USD"⟩ =
        Except.ok ⟨acc + it.unitPrice.amount * it.quantity, "USD"⟩ := by
      unfold Money.add Money.ensureSameCurrency Money.create
      rw [if_neg (by simp), if_neg (not_lt.mpr hsum0)]
      rw [round2_eq_self hsum_den]
      exact rfl
    have harr : acc + it.unitPrice.amount * it.quantity +
        (rest.map (fun i => i.unitPrice.amount * i.quantity)).sum =
        acc + ((it :: rest).map (fun i => i.unitPrice.amount * i.quantity)).sum := by
      rw [List.map_cons, List.sum_cons]
      ring
    simp only [sumItems, htp, hadd]
    rw [ih _ hsum_den hsum0 hrest, harr]

/-- C4: on a CREATED order with validly-constructed items (positive integral
quantities) and one line per product, adding an item whose `productId`
matches an existing line merges: the result has the same number of lines,
still a single line for that product, and that line's quantity is the sum of
the existing and new quantities; a fresh `productId` is appended as a new
line. -/
theorem C4_addItem_merge_or_append (o : Order) (item ex : OrderItem) (now : Nat)
    (hst : o.status = CREATED)
    (hq : ∀ i ∈ o.items, i.quantity.den = 1 ∧ 0 < i.quantity)
    (hiq : item.quantity.den = 1) (hipos : 0 < item.quantity)
    (hnodup : (o.items.map OrderItem.productId).Nodup) :
    (o.items.find? (fun i => i.productId == item.productId) = some ex →
      ∃ newItems,
        Order.addItem o item now = OpResult.ok { o with items := newItems, updatedAt := now } ∧
        newItems.length = o.items.length ∧
        newItems.countP (fun i => i.productId == item.productId) = 1 ∧
        newItems.find? (fun i => i.productId == item.productId) =
          some { ex with quantity := ex.quantity + item.quantity, updatedAt := now }) ∧
    (o.items.find? (fun i => i.productId == item.productId) = none →
      Order.addItem o item now =
        OpResult.ok { o with items := o.items ++ [item], updatedAt := now }) := by
  have hterm : isTerminal CREATED = false := rfl
  constructor
  · intro hfind
    have hmem : ex ∈ o.items := List.mem_of_find?_eq_some hfind
    have hp0 := List.find?_some hfind
    have hpe : ex.productId = item.productId := by simpa using hp0
    have hp : (ex.productId == item.productId) = true := by simp [hpe]
    obtain ⟨hexden, hexpos⟩ := hq ex hmem
    have hcond : ¬((ex.quantity + item.quantity).den ≠ 1 ∨ ex.quantity + item.quantity ≤ 0) := by
      push_neg
      exact ⟨den_one_add hexden hiq, add_pos hexpos hipos⟩
    have hupd : OrderItem.updateQuantity ex (ex.quantity + item.quantity) now =
        Except.ok { ex with quantity := ex.quantity + item.quantity, updatedAt := now } := by
      unfold OrderItem.updateQuantity
      rw [if_neg hcond]
    have hpu : (({ ex with quantity := ex.quantity + item.quantity, updatedAt := now } : OrderItem).productId == item.productId) = true := hp
    refine ⟨replaceFirst (fun i => i.productId == item.productId)
      { ex with quantity := ex.quantity + item.quantity, updatedAt := now } o.items,
      ?_, ?_, ?_, ?_⟩
    · simp [Order.addItem, hterm, hst, hfind, hupd]
    · exact replaceFirst_length _ _ _
    · rw [replaceFirst_countP _ _ hpu]
      have hmm : item.productId ∈ o.items.map OrderItem.productId :=
        List.mem_map.mpr ⟨ex, hmem, hpe⟩
      have hcount : (o.items.map OrderItem.productId).count item.productId = 1 :=
        List.count_eq_one_of_mem hnodup hmm
      calc o.items.countP (fun i => i.productId == item.productId)
          = (o.items.map OrderItem.productId).countP (fun x => x == item.productId) := by
            rw [List.countP_map]
            exact rfl
        _ = 1 := hcount
    · exact replaceFirst_find? _ _ hpu o.items ex hfind
  · intro hfind
    simp [Order.addItem, hterm, hst, hfind]

/-- C4 (witness): adding 3 units of p1 to a CREATED order already holding
2 units of p1 yields one line of p1 with quantity 5, with the line count
unchanged. -/
theorem C4_witness :
    ∃ newItems,
      Order.addItem (baseOrder CREATED [mkItem "p1" 2 10 "USD"]) (mkItem "p1" 3 10 "USD") 7 =
        OpResult.ok { baseOrder CREATED [mkItem "p1" 2 10 "USD"] with
          items := newItems, updatedAt := 7 } ∧
      newItems.length = (baseOrder CREATED [mkItem "p1" 2 10 "USD"]).items.length ∧
      newItems.countP
        (fun i => i.productId == (mkItem "p1" 3 10 "USD").productId) = 1 ∧
      newItems.find? (fun i => i.productId == (mkItem "p1" 3 10 "USD").productId) =
        some { mkItem "p1" 2 10 "USD" with
          quantity := (mkItem "p1" 2 10 "USD").quantity + (mkItem "p1" 3 10 "USD").quantity,
          updatedAt := 7 } :=
  (C4_addItem_merge_or_append (baseOrder CREATED [mkItem "p1" 2 10 "USD"])
    (mkItem "p1" 3 10 "USD") (mkItem "p1" 2 10 "USD") 7 rfl (by decide) (by decide)
    (by decide) (by decide)).1 rfl

/-- C10: when `addItem` merges into an existing line, the merged line keeps
the existing item's `unitPrice`, `productName` and `id` — the new item's
unit price is silently discarded — and its `totalPrice` is the existing
unit price multiplied by the summed quantity. -/
theorem C10_merge_keeps_existing_price (o : Order) (item ex : OrderItem) (now : Nat)
    (hst : o.status = CREATED)
    (hfind : o.items.find? (fun i => i.productId == item.productId) = some ex)
    (hden : (ex.quantity + item.quantity).den = 1) (hpos : 0 < ex.quantity + item.quantity) :
    ∃ merged,
      Order.addItem o item now =
        OpResult.ok { o with
          items := replaceFirst (fun i => i.productId == item.productId) merged o.items,
          updatedAt := now } ∧
      merged.unitPrice = ex.unitPrice ∧
      merged.productName = ex.productName ∧
      merged.id = ex.id ∧
      merged.quantity = ex.quantity + item.quantity ∧
      OrderItem.totalPrice merged = Money.multiply ex.unitPrice (ex.quantity + item.quantity) := by
  have hterm : isTerminal CREATED = false := rfl
  have hcond : ¬((ex.quantity + item.quantity).den ≠ 1 ∨ ex.quantity + item.quantity ≤ 0) := by
    push_neg
    exact ⟨hden, hpos⟩
  have hupd : OrderItem.updateQuantity ex (ex.quantity + item.quantity) now =
      Except.ok { ex with quantity := ex.quantity + item.quantity, updatedAt := now } := by
    unfold OrderItem.updateQuantity
    rw [if_neg hcond]
  exact ⟨{ ex with quantity := ex.quantity + item.quantity, updatedAt := now },
    by simp [Order.addItem, hterm, hst, hfind, hupd], rfl, rfl, rfl, rfl, rfl⟩

/-- C10 (witness): merging 2 units of p1 at 99 USD into an existing line of
1 unit of p1 at 10 USD keeps the 10 USD price, and the resulting order
totals 30 USD — the 99 USD price is discarded. -/
theorem C10_witness :
    (∃ merged,
      Order.addItem mergeBase mergeNew 7 =
        OpResult.ok { mergeBase with
          items := replaceFirst (fun i => i.productId == mergeNew.productId) merged
            mergeBase.items,
          updatedAt := 7 } ∧
      merged.unitPrice = (mkItem "p1" 1 10 "USD").unitPrice ∧
      merged.productName = (mkItem "p1" 1 10 "USD").productName ∧
      merged.id = (mkItem "p1" 1 10 "USD").id ∧
      merged.quantity = (mkItem "p1" 1 10 "USD").quantity + mergeNew.quantity ∧
      OrderItem.totalPrice merged =
        Money.multiply (mkItem "p1" 1 10 "USD").unitPrice
          ((mkItem "p1" 1 10 "USD").quantity + mergeNew.quantity)) ∧
    Order.totalAmount
      (baseOrder CREATED [{ mkItem "p1" 1 10 "USD" with quantity := 3, updatedAt := 7 }]) =
      Except.ok ⟨30, "USD"⟩ := by
  constructor
  · exact C10_merge_keeps_existing_price mergeBase mergeNew (mkItem "p1" 1 10 "USD") 7 rfl rfl
      (by norm_num [mkItem, mergeNew]) (by norm_num [mkItem, mergeNew])
  · have h := sumItems_ok [{ mkItem "p1" 1 10 "USD" with quantity := 3, updatedAt := 7 }] 0
      (by norm_num) le_rfl (by norm_num [mkItem])
    unfold Order.totalAmount
    rw [if_neg (by decide)]
    rw [show Money.zero "USD" = (⟨0, "USD"⟩ : Money) from rfl]
    show sumItems [{ mkItem "p1" 1 10 "USD" with quantity := 3, updatedAt := 7 }]
      (⟨0, "USD"⟩ : Money) = Except.ok ⟨30, "USD"⟩
    rw [h]
    norm_num [mkItem]

/-- C7 (counterexample): an order holding one item priced in EUR does not
have a `totalAmount` at all — the reduce starts from `Money.zero()` in USD
and fails with a currency-mismatch error, so `totalAmount` does not equal
the sum of quantity × unitPrice for every order. -/
theorem C7_counterexample :
    Order.totalAmount eurOrder = Except.error "Currency mismatch: USD vs EUR" ∧
    (Order.totalAmount eurOrder).isOk = false := by
  have htp : OrderItem.totalPrice (mkItem "p1" 1 10 "EUR") =
      Except.ok ⟨round2 (10 * 1), "EUR"⟩ := by
    unfold OrderItem.totalPrice Money.multiply Money.create mkItem
    rw [if_neg (by norm_num), if_neg (by norm_num)]
    exact rfl
  have hmain : Order.totalAmount eurOrder = Except.error "Currency mismatch: USD vs EUR" := by
    unfold Order.totalAmount
    rw [if_neg (by decide)]
    show sumItems [mkItem "p1" 1 10 "EUR"] (Money.zero "USD") = _
    simp only [sumItems, htp]
    exact rfl
  exact ⟨hmain, by rw [hmain]; rfl⟩

/-- C7 (amended): for every order whose items all carry USD unit prices (with
two-decimal nonnegative amounts and nonnegative integral quantities, as
`OrderItem.create` guarantees), `totalAmount` is the exact sum of
quantity × unitPrice over the items, and the zero USD `Money` when the items
list is empty. -/
theorem C7_totalAmount_sum (o : Order)
    (h : ∀ i ∈ o.items, i.unitPrice.currency = "USD" ∧ (i.unitPrice.amount * 100).den = 1 ∧
      0 ≤ i.unitPrice.amount ∧ i.quantity.den = 1 ∧ 0 ≤ i.quantity) :
    Order.totalAmount o =
      Except.ok ⟨(o.items.map (fun i => i.unitPrice.amount * i.quantity)).sum, "USD"⟩ := by
  unfold Order.totalAmount
  by_cases he : o.items.length = 0
  · have hnil : o.items = [] := List.length_eq_zero.mp he
    rw [if_pos he, hnil]
    rfl
  · rw [if_neg he]
    have hz : Money.zero "USD" = (⟨0, "USD"⟩ : Money) := rfl
    rw [hz, sumItems_ok o.items 0 (by norm_num) le_rfl h, zero_add]

/-- C7 (witness): the order with items (quantity 2 at 10.00 USD) and
(quantity 3 at 5.00 USD) has `totalAmount` 35.00 USD. -/
theorem C7_witness :
    Order.totalAmount twoItemOrder = Except.ok ⟨35, "USD"⟩ := by
  rw [C7_totalAmount_sum twoItemOrder (by norm_num [twoItemOrder, baseOrder, mkItem])]
  norm_num [twoItemOrder, baseOrder, mkItem]

end Delivery
